import Mathlib

/-!
Verification of the `report-bot.js` comment-command bot of the
DeckSettings/game-reports-steamos repository.

The bot's `run()` entry point is embedded as a pure state-transition
function `ReportBot.runBot : Env → IssueState → IssueState × List Effect`.
All tracker API calls (Octokit label/comment mutations, the GraphQL issue
deletion, the outbound webhook) are recorded as `Effect`s and reflected in
the successor `IssueState`; the string processing (regexes, `trim`,
`includes`, `toLowerCase`, `split`) is implemented character-by-character
following ECMAScript semantics on the ASCII inputs the bot deals with.
-/

set_option maxRecDepth 16384

namespace ReportBot

/-- JS `\s` for the characters that occur in this program's data
(space, tab, newline, carriage return, vertical tab, form feed). -/
def jsWhitespace (c : Char) : Bool :=
  c = ' ' || c = '\t' || c = '\n' || c = '\r' || c = '\x0b' || c = '\x0c'

/-- ASCII lowercasing, the fragment of JS `toLowerCase` exercised here. -/
def toLowerAscii (c : Char) : Char :=
  if 'A' ≤ c ∧ c ≤ 'Z' then Char.ofNat (c.toNat + 32) else c

/-- Lowercase a whole string. -/
def lowerStr (s : String) : String :=
  String.mk (s.data.map toLowerAscii)

/-- Drop trailing JS whitespace. -/
def trimRightCs (cs : List Char) : List Char :=
  (cs.reverse.dropWhile jsWhitespace).reverse

/-- JS `String.prototype.trim` on char lists. -/
def jsTrimCs (cs : List Char) : List Char :=
  trimRightCs (cs.dropWhile jsWhitespace)

/-- JS `String.prototype.trim`. -/
def jsTrimStr (s : String) : String :=
  String.mk (jsTrimCs s.data)

/-- Does `needle` occur as a contiguous substring of the second argument
(JS `String.prototype.includes`)? -/
def containsSub (needle : List Char) : List Char → Bool
  | [] => needle.isEmpty
  | c :: rest => needle.isPrefixOf (c :: rest) || containsSub needle rest

/-- JS `hay.includes(needle)`. -/
def containsStr (hay needle : String) : Bool :=
  containsSub needle.data hay.data

/-- JS `s.startsWith(p)` (used to state the bot-marker invariant). -/
def startsWithStr (s p : String) : Bool :=
  p.data.isPrefixOf s.data

/-- Case-insensitive literal-prefix matcher; returns the remainder on a hit.
Used for the `/reportbot` literal of the command regexes, which carry the
`i` flag. -/
def stripPrefixCI : List Char → List Char → Option (List Char)
  | [], rest => some rest
  | _ :: _, [] => none
  | p :: ps, c :: cs => if toLowerAscii c = toLowerAscii p then stripPrefixCI ps cs else none

/-- The literal `/reportbot` of the command regex. -/
def reportbotLit : List Char := ['/', 'r', 'e', 'p', 'o', 'r', 't', 'b', 'o', 't']

/-- A character matched by the command-name class `[a-z-]` under the `i`
flag. -/
def isCmdNameChar (c : Char) : Bool :=
  ('a' ≤ c && c ≤ 'z') || ('A' ≤ c && c ≤ 'Z') || c = '-'

/-- Embedding of the leading-command extraction of `run()`:
`commentBody.match(/^\s*@?\/reportbot\s+([a-z-]+)/i)` for the name and
`commentBody.replace(/^\s*@?\/reportbot\s+[a-z-]+\s*/i, "").trim()` for the
trailing description.  Returns `(name.toLowerCase(), description)` or
`none` when the pattern is absent. -/
def parseCommand (body : String) : Option (String × String) :=
  let cs0 := body.data.dropWhile jsWhitespace
  let cs1 := match cs0 with
             | '@' :: r => r
             | _ => cs0
  match stripPrefixCI reportbotLit cs1 with
  | none => none
  | some rest =>
    match rest with
    | [] => none
    | c :: _ =>
      if jsWhitespace c then
        let rest2 := rest.dropWhile jsWhitespace
        let name := rest2.takeWhile isCmdNameChar
        if name.isEmpty then none
        else
          some (String.mk (name.map toLowerAscii),
                String.mk (jsTrimCs (rest2.drop name.length)))
      else none

example : parseCommand "/reportbot help" = some ("help", "") := by decide
example : parseCommand "  @/reportbot   RESOLVE  all " = some ("resolve", "all") := by decide
example : parseCommand "/reportbot delete confirm" = some ("delete", "confirm") := by decide
example : parseCommand "/reportbot suggest-verification Fix power draw" =
    some ("suggest-verification", "Fix power draw") := by decide
example : parseCommand "hello /reportbot help" = none := by decide
example : parseCommand "/reportbothelp" = none := by decide

/-- Tokenizer for `input.split(/[,\s]+/)` followed by
`.map(s => s.trim()).filter(Boolean)`: maximal runs of characters that are
neither commas nor whitespace. -/
def isDelim (c : Char) : Bool := c = ',' || jsWhitespace c

/-- Worker for `tokenize`, accumulating the current token reversed. -/
def tokenizeAux : List Char → List Char → List (List Char)
  | [], acc => if acc.isEmpty then [] else [acc.reverse]
  | c :: rest, acc =>
    if isDelim c then
      if acc.isEmpty then tokenizeAux rest [] else acc.reverse :: tokenizeAux rest []
    else tokenizeAux rest (c :: acc)

/-- The non-empty tokens of a requested-label list. -/
def tokenize (cs : List Char) : List (List Char) := tokenizeAux cs []

example : tokenize " a,b  cc, ".data = ["a".data, "b".data, "cc".data] := by decide

/-- First-occurrence-preserving deduplication (the `Array.from(new Set(...))`
of `normalizeRequestedLabels`). -/
def dedupAux : List String → List String → List String
  | [], _ => []
  | x :: xs, seen => if seen.contains x then dedupAux xs seen else x :: dedupAux xs (x :: seen)

/-- `Array.from(new Set(l))`. -/
def dedupKeepFirst (l : List String) : List String := dedupAux l []

/-! ## Data model -/

/-- An issue comment as far as the bot observes it: numeric identifier,
author login, and body text. -/
structure Comment where
  id : Nat
  userLogin : String
  body : String
deriving Repr, DecidableEq

/-- The tracker-side state the bot reads and mutates: the issue's label
list, its comments, its open/closed state, its author's login, whether the
issue has been hard-deleted, and (an embedding device) the id the tracker
will assign to the next created comment. -/
structure IssueState where
  labels : List String
  comments : List Comment
  state : String
  authorLogin : String
  deleted : Bool
  nextCommentId : Nat
deriving Repr, DecidableEq

/-- The invocation context `run()` reads from its environment:
repository coordinates, the triggering comment's body/author/id, the
action type (`created`/`edited`/`deleted`), the bot's own login
(`GH_ACTIONS_BOT_USER`), the numeric identities used by the webhook gate
(`none` models a `parseInt` that returned `NaN`), and whether
`DV_WEBHOOK_URL`/`DV_WEBHOOK_SECRET` are configured. -/
structure Env where
  owner : String
  repo : String
  issueNumber : Nat
  commentBody : String
  commenter : String
  commentId : Nat
  actionType : String
  botUser : String
  issueAuthorId : Option Nat
  commentUserId : Option Nat
  webhookConfigured : Bool
deriving Repr, DecidableEq

/-- One tracker/network side effect performed during a run. -/
inductive Effect where
  | addLabelE (label : String)
  | removeLabelE (label : String)
  | createCommentE (body : String)
  | updateCommentE (id : Nat) (body : String)
  | deleteCommentE (id : Nat)
  | deleteIssueE
  | webhookE (actionLog : String)
deriving Repr, DecidableEq

/-! ## The command table -/

/-- One entry of `validCommands`. -/
structure CommandConfig where
  label : Option String
  role : Option String
  description : String
deriving Repr, DecidableEq

/-- The `validCommands` table, in its JS insertion order. -/
def commandTable : List (String × CommandConfig) :=
  [("help",
    ⟨none, none, "Displays a list of available ReportBot commands."⟩),
   ("resolve",
    ⟨none, some "author",
     "Report author only. Remove one or more community labels that have been addressed. Usage: `/reportbot resolve <label|label2|...>` or `/reportbot resolve all`"⟩),
   ("delete",
    ⟨none, some "author",
     "Report author only. Permanently delete this report. Usage: `/reportbot delete confirm`"⟩),
   ("suggest-spelling-check",
    ⟨some "community:spelling-check-suggested", none,
     "Applies a label to let the reporter know you are suggesting a spelling check on the report."⟩),
   ("suggest-config-review",
    ⟨some "community:config-review-suggested", none,
     "Applies a label to indicate a review of the configuration options in the report is suggested."⟩),
   ("request-clarification",
    ⟨some "community:clarification-requested", none,
     "Applies a label to let the reporter know you are requesting clarification on specific parts of the report."⟩),
   ("suggest-verification",
    ⟨some "community:verification-suggested", none,
     "Applies a label to let the reporter know you are suggesting verification of the report\x27s information. Usually things to be added to the \x27Additional Notes\x27 section."⟩),
   ("suggest-improvements",
    ⟨some "community:improvements-suggested", none,
     "Applies a label to let the reporter know you are proposing potential improvements to the report."⟩),
   ("mark-duplicate",
    ⟨some "community:duplicate-report", none,
     "Applies a label to indicate this report duplicates an existing submission and should be consolidated."⟩),
   ("mark-invalid",
    ⟨some "invalid:report-inaccurate", some "maintainer",
     "Marks the report as invalid if inaccurate. (Maintainer only)"⟩)]

/-- Lookup in `validCommands`. -/
def validCommands (name : String) : Option CommandConfig :=
  (commandTable.find? (fun e => e.1 = name)).map (fun e => e.2)

/-- `getManagedCommunityLabels()`: the label values of the command table,
in table order. -/
def getManagedCommunityLabels : List String :=
  commandTable.filterMap (fun e => e.2.label)

example : getManagedCommunityLabels =
    ["community:spelling-check-suggested", "community:config-review-suggested",
     "community:clarification-requested", "community:verification-suggested",
     "community:improvements-suggested", "community:duplicate-report",
     "invalid:report-inaccurate"] := by decide

/-- `normalizeRequestedLabels(input, managedLabels)`: split the request on
commas/whitespace, resolve each token case-insensitively against the
managed set (keeping the managed spelling), and deduplicate. -/
def normalizeRequestedLabels (input : String) (managed : List String) : List String :=
  let requested := (tokenize input.data).map (fun t => String.mk t)
  let resolved := requested.filterMap (fun req => managed.find? (fun L => lowerStr L = lowerStr req))
  dedupKeepFirst resolved

example : normalizeRequestedLabels "Community:Duplicate-Report, nonsense community:duplicate-report"
    getManagedCommunityLabels = ["community:duplicate-report"] := by decide

/-- `resolveLabels` iteration: `present` is the snapshot of the labels on
the issue when the command started; returns (labels afterwards, removed,
missing). -/
def resolveLabelsGo (present : List String) : List String → List String → List String × List String × List String
  | [], cur => (cur, [], [])
  | label :: rest, cur =>
    if present.contains label then
      let r := resolveLabelsGo present rest (cur.erase label)
      (r.1, label :: r.2.1, r.2.2)
    else
      let r := resolveLabelsGo present rest cur
      (r.1, r.2.1, label :: r.2.2)

/-- `resolveLabels(owner, repo, issueNumber, labels)` over the issue's
current label list. -/
def resolveLabels (labels0 : List String) (toRemove : List String) : List String × List String × List String :=
  resolveLabelsGo labels0 toRemove labels0

/-! ## Bot comment construction -/

/-- `BOT_COMMENT_HEADER`. -/
def BOT_COMMENT_HEADER : String := "[ReportBot Managed Comment]"

/-- The marker line every bot comment starts with. -/
def botMarker : String := "*" ++ BOT_COMMENT_HEADER ++ "*"

/-- The substring `removeReplyComments` searches bot replies for (note:
not terminated after the decimal identifier). -/
def triggerMarker (origId : Nat) : String :=
  "*This comment was triggered by comment ID: " ++ toString origId

/-- The body `postComment` assembles: marker header, payload, and a footer
naming the triggering comment id, optionally followed by the quoted action
log trailer. -/
def postCommentBody (owner repo : String) (issueNumber origId : Nat)
    (body : String) (actionLog : Option String) : String :=
  let header := botMarker ++ "\n\n---\n\n"
  let commentLink := "https://github.com/" ++ owner ++ "/" ++ repo ++ "/issues/"
      ++ toString issueNumber ++ "#issuecomment-" ++ toString origId
  let footer := "\n\n---\n\n" ++ triggerMarker origId ++ " ([link](" ++ commentLink
      ++ ")).*\n*When you are done with this information, delete your original comment to clean up my messages.*"
  let footer := match actionLog with
                | some l => footer ++ "\n\n---\n\n> " ++ l
                | none => footer
  header ++ "\n" ++ body ++ "\n" ++ footer

/-- `postComment`: create the assembled comment on the issue, authored by
the bot user, taking the tracker-assigned next id. -/
def postComment (env : Env) (origId : Nat) (body : String) (actionLog : Option String)
    (st : IssueState) : IssueState × List Effect :=
  let full := postCommentBody env.owner env.repo env.issueNumber origId body actionLog
  ({st with comments := st.comments ++ [⟨st.nextCommentId, env.botUser, full⟩],
            nextCommentId := st.nextCommentId + 1},
   [Effect.createCommentE full])

/-! ## Webhook gating (`shouldSendWebhook` / `sendHook`) -/

/-- `WEBHOOK_IGNORED_COMMANDS`. -/
def WEBHOOK_IGNORED_COMMANDS : List String := ["help", "resolve", "delete"]

/-- JS `===` on two `parseInt` results, where `none` models `NaN`
(`NaN === NaN` is `false`). -/
def jsNumEq : Option Nat → Option Nat → Bool
  | some a, some b => a = b
  | _, _ => false

/-- JS `\w`. -/
def isWordChar (c : Char) : Bool := c.isAlphanum || c = '_'

/-- `shouldSendWebhook()` as a function of the parsed command data
(`none` when `REPORT_BOT_COMMAND_DATA` is null) and the two identity
environment variables. -/
def shouldSendWebhook (cmdData : Option String) (issueAuthorId commentUserId : Option Nat) : Bool :=
  match cmdData with
  | none => false
  | some cmd =>
    if cmd = "" then false
    else if WEBHOOK_IGNORED_COMMANDS.contains cmd then false
    else
      match validCommands cmd with
      | some cfg =>
        if cfg.role = some "author" then false else !jsNumEq issueAuthorId commentUserId
      | none => !jsNumEq issueAuthorId commentUserId

/-- The webhook effects `sendHook(actionLog)` contributes to a run: one
dispatch when the gates pass and the endpoint is configured, nothing
otherwise. -/
def sendHookEffects (env : Env) (cmdData : Option String) (actionLog : String) : List Effect :=
  if shouldSendWebhook cmdData env.issueAuthorId env.commentUserId ∧ env.webhookConfigured then
    [Effect.webhookE actionLog]
  else []

/-- The HTTPS POST inside `sendHook`, which can fail with an HTTP error. -/
def webhookRequest (deliveryOk : Bool) : Except String Unit :=
  if deliveryOk then Except.ok () else Except.error "Webhook HTTP error"

/-- `sendHook(actionLog)` with its internal try/catch made explicit: the
result is the list of dispatched webhook effects, and a delivery failure
is caught and logged rather than propagated. -/
def sendHookRun (env : Env) (cmdData : Option String) (actionLog : String)
    (deliveryOk : Bool) : Except String (List Effect) :=
  if !(shouldSendWebhook cmdData env.issueAuthorId env.commentUserId) then Except.ok []
  else if !env.webhookConfigured then Except.ok []
  else
    match webhookRequest deliveryOk with
    | Except.ok _ => Except.ok [Effect.webhookE actionLog]
    | Except.error _ => Except.ok [Effect.webhookE actionLog]

/-! ## Label mutation helpers -/

/-- `removeLabel`: the REST call succeeds exactly when the label is on the
issue; on success a `remove_label` webhook is attempted, on failure
(label absent) the error is caught and nothing happens. -/
def removeLabelF (env : Env) (cmdData : Option String) (label : String)
    (st : IssueState) : IssueState × List Effect :=
  if st.labels.contains label then
    ({st with labels := st.labels.erase label},
     Effect.removeLabelE label :: sendHookEffects env cmdData ("ACTION=remove_label LABEL=" ++ label))
  else (st, [])

/-- `applyLabel`: add the label, post the reply carrying the
`add_label` undo trailer, then attempt the webhook. -/
def applyLabel (env : Env) (cmdData : Option String) (origId : Nat) (label : String)
    (st : IssueState) : IssueState × List Effect :=
  let st1 := {st with labels := if st.labels.contains label then st.labels else st.labels ++ [label]}
  let r2 := postComment env origId ("Label \"" ++ label ++ "\" applied")
      (some ("ACTION=add_label LABEL=" ++ label)) st1
  (r2.1, Effect.addLabelE label :: r2.2 ++ sendHookEffects env cmdData ("ACTION=add_label LABEL=" ++ label))

/-! ## Reply cleanup (`removeReplyComments`) -/

/-- Attempt to match `/> ACTION=(\w+) LABEL=(\S+)/` at the very start of
`cs`. -/
def matchActionAt (cs : List Char) : Option (String × String) :=
  if "> ACTION=".data.isPrefixOf cs then
    let r1 := cs.drop 9
    let w := r1.takeWhile isWordChar
    if w.isEmpty then none
    else
      let r2 := r1.drop w.length
      if " LABEL=".data.isPrefixOf r2 then
        let r3 := r2.drop 7
        let v := r3.takeWhile (fun c => !jsWhitespace c)
        if v.isEmpty then none else some (String.mk w, String.mk v)
      else none
  else none

/-- Leftmost match of `/> ACTION=(\w+) LABEL=(\S+)/` in a comment body
(`comment.body.match(...)`). -/
def parseActionLog : List Char → Option (String × String)
  | [] => none
  | c :: rest =>
    match matchActionAt (c :: rest) with
    | some r => some r
    | none => parseActionLog rest

example : parseActionLog "x\n\n---\n\n> ACTION=add_label LABEL=community:duplicate-report".data =
    some ("add_label", "community:duplicate-report") := by decide
example : parseActionLog "> ACTION=resolve LABELS=a,b".data = none := by decide

/-- The per-matched-comment loop body of `removeReplyComments`: undo a
parsed `add_label` action, then delete the reply (or, with `keepComment`,
append the resolved annotation instead). -/
def undoAndClean (env : Env) (cmdData : Option String) (keepComment : Bool) :
    List Comment → IssueState → IssueState × List Effect
  | [], st => (st, [])
  | c :: rest, st =>
    let r1 :=
      match parseActionLog c.body.data with
      | some al => if al.1 = "add_label" then removeLabelF env cmdData al.2 st else (st, [])
      | none => (st, [])
    let r2 :=
      if keepComment then
        let nb := c.body ++ "\n\n✅ *This feedback has been marked as RESOLVED by the commenter.*"
        ({r1.1 with comments := r1.1.comments.map (fun d => if d.id = c.id then {d with body := nb} else d)},
         [Effect.updateCommentE c.id nb])
      else
        ({r1.1 with comments := r1.1.comments.filter (fun d => d.id ≠ c.id)},
         [Effect.deleteCommentE c.id])
    let r3 := undoAndClean env cmdData keepComment rest r2.1
    (r3.1, r1.2 ++ r2.2 ++ r3.2)

/-- `removeReplyComments(owner, repo, issueNumber, originalCommentId,
options)`: select the bot-authored comments whose body contains the
(unterminated) trigger marker, then undo and clean each. -/
def removeReplyComments (env : Env) (cmdData : Option String) (origId : Nat)
    (keepComment : Bool) (st : IssueState) : IssueState × List Effect :=
  let bots := st.comments.filter
    (fun c => c.userLogin = env.botUser && containsStr c.body (triggerMarker origId))
  undoAndClean env cmdData keepComment bots st

/-! ## The fixed bot texts -/

/-- `REPORT_BOT_INTRO_MESSAGE` (posted verbatim by `postIssueHelpComment`). -/
def REPORT_BOT_INTRO_MESSAGE : String :=
  botMarker
  ++ "\n\nHi! I\x27m **ReportBot**, here to help the community collaborate on this game report.\n\n<details>\n<summary><strong>▶️ How to use ReportBot (click to expand)</strong></summary>\n\n---\n\nStart a comment with `/reportbot <command> ...details...`. Always add a short explanation **after** the command so the reporter knows what to do next.\n\n## Examples\n\n### Community commands\n\n"
  ++ "> [\"help\"] See everything I can do.\n```\n/reportbot help\n```\n\n> [\"request-clarification\"] Ask for more details. Usually to be added to the \"Additional Notes\" section.\n```\n/reportbot request-clarification\nCould you clarify where the FPS was measured? For example, was the minimum FPS captured when entering the open world after the second village (where stutters and drops are most common)?\n```\n\n"
  ++ "> [\"suggest-config-review\"] Suggest re-checking configuration details. Often used when a game or driver update may have changed results.\n```\n/reportbot suggest-config-review\nThis game was recently updated with performance fixes. The performance targets in your report may now be out of date and worth re-testing.\n```\n\n"
  ++ "> [\"suggest-improvements\"] Propose adding extra information or media.\n```\n/reportbot suggest-improvements\nYou left the \"Average Battery Power Draw\" field blank. Please add it so the report can include an estimated battery life calculation.\n```\n\n"
  ++ "> [\"suggest-spelling-check\"] Point out typos or grammar issues.\n```\n/reportbot suggest-spelling-check\nA few headings (e.g. \"Graphcis\") look misspelled.\n```\n\n"
  ++ "> [\"suggest-verification\"] Recommend double-checking accuracy. Use this to point out potential mistakes or inconsistencies.\n```\n/reportbot suggest-verification\nThe max power draw was listed as 5 W when it looks like you meant 15 W. The report shows a very long battery life, but at 15 W it should probably only have a few hours.\n```\n\n"
  ++ "> [\"mark-duplicate\"] Flag this report as a duplicate of an existing submission so the author can consolidate updates.\n```\n/reportbot mark-duplicate\nThis looks like the same configuration and results as your report in #123. Let\x27s keep the discussion there to avoid splitting feedback.\n```\n\n"
  ++ "### Author-only commands\n\n> [\"resolve\"] Remove a specific label after addressing it.\n```\n/reportbot resolve community:clarification-requested\n```\n\n> [\"resolve\"] Remove several labels at once.\n```\n/reportbot resolve community:clarification-requested community:verification-suggested\n```\n\n> [\"resolve\"] Remove **all** managed community labels from this report.\n```\n/reportbot resolve all\n```\n\n> [\"delete\"] **Permanently delete this report** (Requires confirmation).\n```\n/reportbot delete\n```\nThis irreversibly removes the issue and all comments.\n\n</details>\n\n"
  ++ "<details>\n<summary><strong>▶️ Notes on Community Labels (click to expand)</strong></summary>\n\n---\n\n## What labels are (and when to use them)\nLabels are **community signals** attached to the report so the author can quickly see what needs attention. They are not votes and they are not punishments. They are prompts to improve clarity and usefulness.\n\nUse a label when your feedback is:\n- **Actionable** (the author can do something specific), and\n- **Specific** (points to a setting, a metric, a claim, or evidence).\n\n"
  ++ "Good uses:\n- Ask for missing details (`community:clarification-requested`).\n- Suggest a focused settings review (`community:config-review-suggested`).\n- Propose concrete upgrades like screenshots or short clips (`community:improvements-suggested`).\n- Flag a duplicate submission so discussion stays on the original report (`community:duplicate-report`).\n- Flag typos that reduce readability (`community:spelling-check-suggested`).\n- Request a double-check of a claim or metric (`community:verification-suggested`).\n- The report appears to be a duplicate of another report by the same author (`community:duplicate-report`).\n\nLess ideal:\n- General disagreement without details (use a regular comment and explain).\n- Piling on multiple labels for the same point (pick the most relevant single label).\n\n</details>\n\n\n"
  ++ "<details>\n<summary><strong>▶️ Resolving feedback (click to expand)</strong></summary>\n\n---\n\nIf you posted a feedback comment with `/reportbot` and it has been addressed, you have two ways to resolve the labels it created:\n\n1. **Edit your original comment** and append **`[RESOLVED]`** on its own line. ReportBot will remove the label or labels created from that comment and mark its bot reply as resolved.  \n2. **Delete your original comment.** ReportBot will automatically remove the associated labels and its reply.\n\nThe author can also manually remove labels using the `/reportbot resolve <label>` command if they feel it is invalid or they have addressed the issue that was raised.\n\n</details>\n\n---\n\n"
  ++ "## A note to the report author (you own this report)\nYou can **edit your report at any time**. Games evolve — patches improve performance, drivers change, settings meta shifts. If your results change, please **update your report** so others benefit from the freshest info.\n\nPrefer to withdraw it? That is okay too. You can **permanently delete your report** with `/reportbot delete confirm`. (This is irreversible.)\n\nCommunity members may post comments or add the labels below to highlight something they think needs attention. If you see such a label on your report, please review it and consider updating to avoid the report getting voted down. When you have addressed it, you can clear labels yourself using the author-only `resolve` command shown above.\n\n---\n\n"
  ++ "## Be excellent to each other\nKeep discussion **civil, specific, and constructive**. We are here to help one another find good settings and accurate expectations.\n\n---\n\n> [!TIP]\n> Post a comment `/reportbot help` any time to see the full list of commands that can be used in comments below.\n\n> [!NOTE]\n> You can also react 👍 or 👎 to the report to express an overall opinion.\n> These reactions will affect the placement of this review in search results.\n"

/-- The help list of `postHelpComment` (maintainer-only commands are
filtered out). -/
def helpBody : String :=
  let helpText := String.intercalate "\n"
    ((commandTable.filter (fun e => e.2.role ≠ some "maintainer")).map
      (fun e => "- `/reportbot " ++ e.1 ++ "`\n  - " ++ e.2.description))
  let helpMessage := "Here are the available commands for ReportBot:\n\n" ++ helpText
  let helpFooter := "***Important:*** You cannot submit a command without providing additional information. Always include specific details to help the reporter address your suggestion.\n\n- You can start commands with `/reportbot`.\n- Note: `resolve` and `delete` can only be used by the **report author**."
  helpMessage ++ "\n\n\n" ++ helpFooter

/-- Reply for an unrecognized command name. -/
def invalidCommandBody (commenter : String) : String :=
  "@" ++ commenter ++ " Invalid command provided. Use a recognized /reportbot command."

/-- Rejection for `resolve` from a non-author. -/
def resolveRejectBody (commenter issueAuthor : String) : String :=
  "@" ++ commenter ++ " Only the report author (@" ++ issueAuthor ++ ") can resolve labels on this issue."

/-- Usage guidance for `resolve` without arguments. -/
def resolveUsageBody (commenter : String) : String :=
  "@" ++ commenter ++ " Please specify which label(s) to resolve, e.g. `/reportbot resolve community:clarification-requested` or `/reportbot resolve all`."

/-- Reply when no requested label resolves against the managed set. -/
def noValidLabelsBody (commenter : String) (managed : List String) : String :=
  "@" ++ commenter ++ " No valid managed labels found in your request. Managed labels are: `"
    ++ String.intercalate ", " managed ++ "`."

/-- The removed/not-present report of the `resolve` command. -/
def resolveReplyBody (removed missing : List String) : String :=
  let parts : List String :=
    (if removed.isEmpty then [] else ["✅ Removed: `" ++ String.intercalate "`, `" removed ++ "`"])
    ++ (if missing.isEmpty then [] else ["ℹ️ Not present: `" ++ String.intercalate "`, `" missing ++ "`"])
  if parts.isEmpty then "No changes were made." else String.intercalate "\n" parts

/-- Rejection for `delete` from a non-author. -/
def deleteRejectBody (commenter issueAuthor : String) : String :=
  "@" ++ commenter ++ " Only the report author (@" ++ issueAuthor ++ ") can delete this report."

/-- Guidance when `delete` lacks the confirmation argument. -/
def deleteConfirmBody (commenter : String) : String :=
  "@" ++ commenter ++ " This will permanently delete the report and all comments. If you\x27re sure, run:\n\n`/reportbot delete confirm`"

/-- Reply when `delete confirm` hits a still-open issue. -/
def deleteClosedFirstBody (commenter : String) : String :=
  "@" ++ commenter ++ " This report must be closed before it can be permanently deleted. Please close the issue, then run `/reportbot delete confirm` to proceed. Deleting is permanent and the report cannot be recovered afterwards."

/-- Reply for a label command missing its mandatory details. -/
def needDetailsBody (commenter : String) : String :=
  "@" ++ commenter ++ " you cannot instantiate a bot command without providing details for the reporter to action."

/-! ## The main entry point `run()` -/

/-- The missing-environment guard of `run()` (`process.exit(1)` when any
required variable is absent), in source order. -/
def envMissing (env : Env) : Bool :=
  env.issueNumber = 0 || env.owner = "" || env.repo = "" || jsTrimStr env.commentBody = ""
    || env.commentId = 0 || env.actionType = ""

/-- The `resolve`-command tail shared by the `all` and explicit-list paths:
run `resolveLabels` over the requested set and post the report reply with
its `ACTION=resolve` trailer. -/
def doResolve (env : Env) (toRemove : List String) (st : IssueState) : IssueState × List Effect :=
  let r := resolveLabels st.labels toRemove
  let st1 := {st with labels := r.1}
  let p := postComment env env.commentId (resolveReplyBody r.2.1 r.2.2)
      (some ("ACTION=resolve LABELS=" ++ String.intercalate "," toRemove)) st1
  (p.1, r.2.1.map Effect.removeLabelE ++ p.2)

/-- Embedding of `run()`: one invocation of the bot over the trigger
context `env` and the tracker state `st`, returning the successor state
and the side effects performed, in order. -/
def runBot (env : Env) (st : IssueState) : IssueState × List Effect :=
  let body := jsTrimStr env.commentBody
  if envMissing env then (st, [])
  else if containsStr body BOT_COMMENT_HEADER then (st, [])
  else
    match parseCommand body with
    | none =>
      if env.actionType = "deleted" then removeReplyComments env none env.commentId false st
      else (st, [])
    | some (command, desc) =>
      let cd := some command
      match validCommands command with
      | none => postComment env env.commentId (invalidCommandBody env.commenter) none st
      | some cfg =>
        if env.actionType = "created" then
          if command = "help" then postComment env env.commentId helpBody none st
          else if command = "resolve" then
            if env.commenter ≠ st.authorLogin then
              postComment env env.commentId (resolveRejectBody env.commenter st.authorLogin) none st
            else if desc = "" then
              postComment env env.commentId (resolveUsageBody env.commenter) none st
            else
              let managed := getManagedCommunityLabels
              if lowerStr desc = "all" then doResolve env managed st
              else
                let toRemove := normalizeRequestedLabels desc managed
                if toRemove.isEmpty then
                  postComment env env.commentId (noValidLabelsBody env.commenter managed) none st
                else doResolve env toRemove st
          else if command = "delete" then
            if env.commenter ≠ st.authorLogin then
              postComment env env.commentId (deleteRejectBody env.commenter st.authorLogin) none st
            else if lowerStr desc ≠ "confirm" then
              postComment env env.commentId (deleteConfirmBody env.commenter) none st
            else if lowerStr st.state ≠ "closed" then
              postComment env env.commentId (deleteClosedFirstBody env.commenter) none st
            else ({st with deleted := true}, [Effect.deleteIssueE])
          else if desc = "" then
            postComment env env.commentId (needDetailsBody env.commenter) none st
          else
            match cfg.label with
            | some l => applyLabel env cd env.commentId l st
            | none => (st, [])
        else if env.actionType = "deleted" then removeReplyComments env cd env.commentId false st
        else if env.actionType = "edited" then
          if containsStr body "[RESOLVED]" then removeReplyComments env cd env.commentId true st
          else (st, [])
        else (st, [])

/-! ## Generic substring / trim lemmas -/

theorem isPrefixOf_append_left {n l : List Char} (t : List Char)
    (h : n.isPrefixOf l = true) : n.isPrefixOf (l ++ t) = true := by
  rw [List.isPrefixOf_iff_prefix] at h ⊢
  exact h.trans (List.prefix_append l t)

theorem containsSub_nil_left : ∀ t : List Char, containsSub [] t = true
  | [] => rfl
  | _ :: rest => by simp [containsSub, List.isPrefixOf]

theorem containsSub_append_right {n h : List Char} (t : List Char)
    (hc : containsSub n h = true) : containsSub n (h ++ t) = true := by
  induction h with
  | nil =>
    simp only [containsSub, List.isEmpty_iff] at hc
    subst hc
    simpa using containsSub_nil_left t
  | cons c rest ih =>
    simp only [containsSub, Bool.or_eq_true] at hc
    rcases hc with hc | hc
    · simp only [List.cons_append, containsSub, Bool.or_eq_true]
      exact Or.inl (isPrefixOf_append_left t hc)
    · simp only [List.cons_append, containsSub, Bool.or_eq_true]
      exact Or.inr (ih hc)

/-- A string starting with the bot marker still contains
`BOT_COMMENT_HEADER` after JS trimming: neither end of the marker is
whitespace, so `trim` cannot eat into it. -/
theorem trim_contains_header (rest : String) :
    containsStr (jsTrimStr (botMarker ++ rest)) BOT_COMMENT_HEADER = true := by
  have hdata : (botMarker ++ rest).data = botMarker.data ++ rest.data := String.data_append _ _
  have hdrop : List.dropWhile jsWhitespace botMarker.data = botMarker.data := by decide
  have hdrop2 : (List.dropWhile jsWhitespace botMarker.data).isEmpty = false := by decide
  have hdropR : List.dropWhile jsWhitespace botMarker.data.reverse = botMarker.data.reverse := by
    decide
  simp only [containsStr, jsTrimStr, jsTrimCs, trimRightCs, hdata]
  rw [List.dropWhile_append, hdrop2]
  simp only [Bool.false_eq_true, if_false, hdrop, List.reverse_append]
  rw [List.dropWhile_append]
  by_cases hre : (List.dropWhile jsWhitespace rest.data.reverse).isEmpty = true
  · rw [if_pos hre, hdropR, List.reverse_reverse]
    decide
  · rw [if_neg hre]
    simp only [List.reverse_append, List.reverse_reverse]
    exact containsSub_append_right _ (by decide)

theorem startsWithStr_of_append (m rest : String) : startsWithStr (m ++ rest) m = true := by
  rw [startsWithStr, String.data_append, List.isPrefixOf_iff_prefix]
  exact List.prefix_append _ _

theorem exists_append_of_startsWith {s m : String} (h : startsWithStr s m = true) :
    ∃ rest, s = m ++ rest := by
  rw [startsWithStr, List.isPrefixOf_iff_prefix] at h
  obtain ⟨t, ht⟩ := h
  refine ⟨String.mk t, ?_⟩
  apply String.ext
  rw [String.data_append, ← ht]

/-- Every comment body `postComment` assembles starts with the marker. -/
theorem postCommentBody_marker (owner repo : String) (issueNumber origId : Nat)
    (body : String) (actionLog : Option String) :
    startsWithStr (postCommentBody owner repo issueNumber origId body actionLog) botMarker = true := by
  cases actionLog <;>
  · rw [postCommentBody]
    simp only [String.append_assoc]
    exact startsWithStr_of_append _ _

/-- The intro message starts with the marker. -/
theorem introMessage_marker : startsWithStr REPORT_BOT_INTRO_MESSAGE botMarker = true := by
  rw [REPORT_BOT_INTRO_MESSAGE]
  simp only [String.append_assoc]
  exact startsWithStr_of_append _ _

/-- `run()` does nothing for a body containing the bot header. -/
theorem runBot_ignores_header (env : Env) (st : IssueState)
    (h : containsStr (jsTrimStr env.commentBody) BOT_COMMENT_HEADER = true) :
    runBot env st = (st, []) := by
  unfold runBot
  by_cases hm : envMissing env = true
  · simp [hm]
  · simp [hm, h]

/-! ## Claim theorems -/

/-- C9.  Every comment the bot posts (the `postComment` wrapper used by all
command and help replies, and the intro message) begins with the marker
`*[ReportBot Managed Comment]*`; `run()` ignores, before any command
parsing, every comment whose (trimmed) body contains the header
`[ReportBot Managed Comment]`; consequently a run triggered by any
bot-authored body performs no dispatch and no mutation. -/
theorem c9_bot_marker_invariant :
    (∀ owner repo issueNumber origId body actionLog,
       startsWithStr (postCommentBody owner repo issueNumber origId body actionLog) botMarker = true)
    ∧ startsWithStr REPORT_BOT_INTRO_MESSAGE botMarker = true
    ∧ (∀ env st, containsStr (jsTrimStr env.commentBody) BOT_COMMENT_HEADER = true →
         runBot env st = (st, []))
    ∧ (∀ env st owner repo issueNumber origId body actionLog,
         env.commentBody = postCommentBody owner repo issueNumber origId body actionLog →
         runBot env st = (st, []))
    ∧ (∀ env st, env.commentBody = REPORT_BOT_INTRO_MESSAGE → runBot env st = (st, [])) := by
  refine ⟨postCommentBody_marker, introMessage_marker, runBot_ignores_header, ?_, ?_⟩
  · intro env st owner repo issueNumber origId body actionLog h
    obtain ⟨rest, hrest⟩ :=
      exists_append_of_startsWith (postCommentBody_marker owner repo issueNumber origId body actionLog)
    exact runBot_ignores_header env st (by rw [h, hrest]; exact trim_contains_header rest)
  · intro env st h
    obtain ⟨rest, hrest⟩ := exists_append_of_startsWith introMessage_marker
    exact runBot_ignores_header env st (by rw [h, hrest]; exact trim_contains_header rest)

/-- Concrete instance of C9: a run whose triggering body is the intro
message (respectively a constructed bot reply) leaves the tracker
untouched. -/
theorem c9_bot_marker_invariant_witness :
    runBot
      { owner := "DeckSettings", repo := "game-reports-steamos", issueNumber := 1,
        commentBody := REPORT_BOT_INTRO_MESSAGE, commenter := "alice", commentId := 9,
        actionType := "created", botUser := "github-actions[bot]",
        issueAuthorId := some 1, commentUserId := some 2, webhookConfigured := true }
      { labels := ["community:duplicate-report"], comments := [], state := "open",
        authorLogin := "alice", deleted := false, nextCommentId := 10 }
    = ({ labels := ["community:duplicate-report"], comments := [], state := "open",
         authorLogin := "alice", deleted := false, nextCommentId := 10 }, []) :=
  c9_bot_marker_invariant.2.2.2.2 _ _ rfl

/-- C1 (amended).  For a created `delete` command from the issue author:
the irreversible deletion happens exactly when the issue is already closed
and the trailing argument equals the token `confirm` up to ASCII case
(the code lowercases it before comparing); with a non-`confirm` argument
the bot posts the confirmation guidance, and with `confirm` on a
still-open issue it posts the close-it-first reply; in both replies no
deletion is performed. -/
theorem c1_delete_gating (env : Env) (st : IssueState) (desc : String)
    (h0 : envMissing env = false)
    (h1 : containsStr (jsTrimStr env.commentBody) BOT_COMMENT_HEADER = false)
    (h2 : parseCommand (jsTrimStr env.commentBody) = some ("delete", desc))
    (h3 : env.actionType = "created")
    (h4 : env.commenter = st.authorLogin) :
    (Effect.deleteIssueE ∈ (runBot env st).2 ↔
       lowerStr desc = "confirm" ∧ lowerStr st.state = "closed")
    ∧ (lowerStr desc = "confirm" → lowerStr st.state = "closed" →
        runBot env st = ({st with deleted := true}, [Effect.deleteIssueE]))
    ∧ (lowerStr desc ≠ "confirm" →
        runBot env st = postComment env env.commentId (deleteConfirmBody env.commenter) none st)
    ∧ (lowerStr desc = "confirm" → lowerStr st.state ≠ "closed" →
        runBot env st = postComment env env.commentId (deleteClosedFirstBody env.commenter) none st) := by
  have heq1 : lowerStr desc = "confirm" → lowerStr st.state = "closed" →
      runBot env st = ({st with deleted := true}, [Effect.deleteIssueE]) := by
    intro hc hs
    unfold runBot
    simp only [h0, h1, h2, h3, h4, hc, hs, Bool.false_eq_true, if_false, ne_eq,
      not_true_eq_false]
    simp only [validCommands, commandTable, List.find?, String.reduceEq, Option.map_some]
    rfl
  have heq2 : lowerStr desc ≠ "confirm" →
      runBot env st = postComment env env.commentId (deleteConfirmBody env.commenter) none st := by
    intro hc
    unfold runBot
    simp only [h0, h1, h2, h3, h4, hc, Bool.false_eq_true, if_false, ne_eq,
      not_true_eq_false, not_false_eq_true]
    simp only [validCommands, commandTable, List.find?, String.reduceEq, Option.map_some]
    rfl
  have heq3 : lowerStr desc = "confirm" → lowerStr st.state ≠ "closed" →
      runBot env st = postComment env env.commentId (deleteClosedFirstBody env.commenter) none st := by
    intro hc hs
    unfold runBot
    simp only [h0, h1, h2, h3, h4, hc, hs, Bool.false_eq_true, if_false, ne_eq,
      not_true_eq_false, not_false_eq_true]
    simp only [validCommands, commandTable, List.find?, String.reduceEq, Option.map_some]
    rfl
  refine ⟨⟨?_, ?_⟩, heq1, heq2, heq3⟩
  · intro hmem
    by_cases hc : lowerStr desc = "confirm"
    · by_cases hs : lowerStr st.state = "closed"
      · exact ⟨hc, hs⟩
      · rw [heq3 hc hs] at hmem
        simp [postComment] at hmem
    · rw [heq2 hc] at hmem
      simp [postComment] at hmem
  · rintro ⟨hc, hs⟩
    rw [heq1 hc hs]
    simp

/-- C1 witness scenario: author-issued `delete confirm` on an open issue. -/
def c1wEnv : Env :=
  { owner := "DeckSettings", repo := "game-reports-steamos", issueNumber := 42,
    commentBody := "/reportbot delete confirm", commenter := "alice", commentId := 777,
    actionType := "created", botUser := "github-actions[bot]",
    issueAuthorId := some 1, commentUserId := some 1, webhookConfigured := true }

/-- C1 witness state: the report is still open. -/
def c1wSt : IssueState :=
  { labels := [], comments := [], state := "open", authorLogin := "alice",
    deleted := false, nextCommentId := 1000 }

/-- Concrete instance of C1: `delete confirm` from the author on an open
issue yields the close-it-first reply and no deletion. -/
theorem c1_delete_gating_witness :
    runBot c1wEnv c1wSt
      = postComment c1wEnv c1wEnv.commentId (deleteClosedFirstBody c1wEnv.commenter) none c1wSt :=
  (c1_delete_gating c1wEnv c1wSt "confirm" (by decide) (by decide) (by decide) rfl rfl).2.2.2
    (by decide) (by decide)

/-- C1 counterexample environment: the author runs
`/reportbot delete CONFIRM` on a closed report. -/
def c1xEnv : Env :=
  { owner := "DeckSettings", repo := "game-reports-steamos", issueNumber := 42,
    commentBody := "/reportbot delete CONFIRM", commenter := "alice", commentId := 777,
    actionType := "created", botUser := "github-actions[bot]",
    issueAuthorId := some 1, commentUserId := some 1, webhookConfigured := true }

/-- C1 counterexample state. -/
def c1xSt : IssueState :=
  { labels := [], comments := [], state := "closed", authorLogin := "alice",
    deleted := false, nextCommentId := 1000 }

/-- C1 counterexample: the trailing argument `CONFIRM` does not literally
equal the token `confirm`, yet the hard delete is performed, refuting the
claim that deletion happens only when the argument literally equals
`confirm`. -/
theorem c1_counterexample :
    parseCommand (jsTrimStr c1xEnv.commentBody) = some ("delete", "CONFIRM")
    ∧ "CONFIRM" ≠ "confirm"
    ∧ runBot c1xEnv c1xSt = ({c1xSt with deleted := true}, [Effect.deleteIssueE]) :=
  ⟨by decide, by decide, by decide⟩

/-- The frame of a `postComment`-only branch: labels, open/closed state and
deletion flag are untouched and the single effect is the reply creation. -/
theorem postComment_frame (env : Env) (origId : Nat) (body : String)
    (actionLog : Option String) (st : IssueState) :
    (postComment env origId body actionLog st).1.labels = st.labels
    ∧ (postComment env origId body actionLog st).1.deleted = st.deleted
    ∧ (postComment env origId body actionLog st).1.state = st.state
    ∧ (postComment env origId body actionLog st).2
        = [Effect.createCommentE (postCommentBody env.owner env.repo env.issueNumber origId body actionLog)] :=
  ⟨rfl, rfl, rfl, rfl⟩

/-- C2 (amended).  Only the author-role commands are role-checked: a
`resolve` or `delete` comment from anyone but the issue author yields
exactly the rejection reply and no other effect.  The `mark-invalid`
command, despite its configured "maintainer" role, is never role-checked:
any commenter (with a non-empty description) gets its label applied. -/
theorem c2_role_checks (env : Env) (st : IssueState) (desc : String)
    (h0 : envMissing env = false)
    (h1 : containsStr (jsTrimStr env.commentBody) BOT_COMMENT_HEADER = false)
    (h3 : env.actionType = "created")
    (h4 : env.commenter ≠ st.authorLogin) :
    (parseCommand (jsTrimStr env.commentBody) = some ("resolve", desc) →
       runBot env st
         = postComment env env.commentId (resolveRejectBody env.commenter st.authorLogin) none st)
    ∧ (parseCommand (jsTrimStr env.commentBody) = some ("delete", desc) →
       runBot env st
         = postComment env env.commentId (deleteRejectBody env.commenter st.authorLogin) none st)
    ∧ (parseCommand (jsTrimStr env.commentBody) = some ("mark-invalid", desc) → desc ≠ "" →
       runBot env st
         = applyLabel env (some "mark-invalid") env.commentId "invalid:report-inaccurate" st) := by
  refine ⟨?_, ?_, ?_⟩
  · intro h2
    unfold runBot
    simp only [h0, h1, h2, h3, h4, Bool.false_eq_true, if_false, ne_eq,
      not_false_eq_true]
    simp only [validCommands, commandTable, List.find?, String.reduceEq, Option.map_some]
    rfl
  · intro h2
    unfold runBot
    simp only [h0, h1, h2, h3, h4, Bool.false_eq_true, if_false, ne_eq,
      not_false_eq_true]
    simp only [validCommands, commandTable, List.find?, String.reduceEq, Option.map_some]
    rfl
  · intro h2 h6
    unfold runBot
    simp only [h0, h1, h2, h3, h6, Bool.false_eq_true, if_false, ne_eq,
      not_false_eq_true]
    simp only [validCommands, commandTable, List.find?, String.reduceEq, Option.map_some]
    rfl

/-- C2 witness scenario: bob tries `resolve` on alice's report. -/
def c2wEnv : Env :=
  { owner := "DeckSettings", repo := "game-reports-steamos", issueNumber := 5,
    commentBody := "/reportbot resolve all", commenter := "bob", commentId := 31,
    actionType := "created", botUser := "github-actions[bot]",
    issueAuthorId := some 1, commentUserId := some 2, webhookConfigured := true }

/-- C2 witness state. -/
def c2wSt : IssueState :=
  { labels := ["community:duplicate-report"], comments := [], state := "open",
    authorLogin := "alice", deleted := false, nextCommentId := 40 }

/-- Concrete instance of C2: the non-author `resolve` gets only the
rejection reply. -/
theorem c2_role_checks_witness :
    runBot c2wEnv c2wSt
      = postComment c2wEnv c2wEnv.commentId (resolveRejectBody c2wEnv.commenter c2wSt.authorLogin) none c2wSt :=
  (c2_role_checks c2wEnv c2wSt "all" (by decide) (by decide) rfl (by decide)).1 (by decide)

/-- C2 counterexample environment: mallory (not the author, not a
maintainer) issues `mark-invalid`. -/
def c2xEnv : Env :=
  { owner := "DeckSettings", repo := "game-reports-steamos", issueNumber := 5,
    commentBody := "/reportbot mark-invalid data looks wrong", commenter := "mallory",
    commentId := 31, actionType := "created", botUser := "github-actions[bot]",
    issueAuthorId := some 1, commentUserId := some 2, webhookConfigured := false }

/-- C2 counterexample state. -/
def c2xSt : IssueState :=
  { labels := [], comments := [], state := "open", authorLogin := "alice",
    deleted := false, nextCommentId := 40 }

/-- C2 counterexample: `mark-invalid` carries the "maintainer" role, yet a
run for an arbitrary commenter applies the `invalid:report-inaccurate`
label — a side effect — instead of being rejected. -/
theorem c2_counterexample :
    c2xEnv.commenter ≠ c2xSt.authorLogin
    ∧ (runBot c2xEnv c2xSt).1.labels = ["invalid:report-inaccurate"]
    ∧ Effect.addLabelE "invalid:report-inaccurate" ∈ (runBot c2xEnv c2xSt).2 :=
  ⟨by decide, by decide, by decide⟩

/-- C7 (amended).  A parsed command name outside the command table yields
exactly the fixed rejection reply (which addresses the commenter but does
not quote the command name) and no other effect. -/
theorem c7_unknown_command (env : Env) (st : IssueState) (cmd desc : String)
    (h0 : envMissing env = false)
    (h1 : containsStr (jsTrimStr env.commentBody) BOT_COMMENT_HEADER = false)
    (h2 : parseCommand (jsTrimStr env.commentBody) = some (cmd, desc))
    (h5 : validCommands cmd = none) :
    runBot env st = postComment env env.commentId (invalidCommandBody env.commenter) none st := by
  unfold runBot
  simp only [h0, h1, h2, h5, Bool.false_eq_true, if_false]

/-- C7 counterexample/witness environment: the unknown command
`frobnicate`. -/
def c7xEnv : Env :=
  { owner := "DeckSettings", repo := "game-reports-steamos", issueNumber := 5,
    commentBody := "/reportbot frobnicate do stuff", commenter := "carol", commentId := 31,
    actionType := "created", botUser := "github-actions[bot]",
    issueAuthorId := some 1, commentUserId := some 2, webhookConfigured := false }

/-- C7 counterexample state. -/
def c7xSt : IssueState :=
  { labels := [], comments := [], state := "open", authorLogin := "alice",
    deleted := false, nextCommentId := 40 }

/-- C7 counterexample: for the unknown command `frobnicate` the single
reply the bot posts nowhere contains the string `frobnicate`, refuting
"a rejection reply that names the invalid command". -/
theorem c7_counterexample :
    parseCommand (jsTrimStr c7xEnv.commentBody) = some ("frobnicate", "do stuff")
    ∧ containsStr
        (postCommentBody c7xEnv.owner c7xEnv.repo c7xEnv.issueNumber c7xEnv.commentId
          (invalidCommandBody c7xEnv.commenter) none) "frobnicate" = false
    ∧ runBot c7xEnv c7xSt
        = postComment c7xEnv c7xEnv.commentId (invalidCommandBody c7xEnv.commenter) none c7xSt :=
  ⟨by decide, by decide, by decide⟩

/-- Concrete instance of the amended C7. -/
theorem c7_unknown_command_witness :
    runBot c7xEnv {c7xSt with labels := ["community:duplicate-report"]}
      = postComment c7xEnv c7xEnv.commentId (invalidCommandBody c7xEnv.commenter) none
          {c7xSt with labels := ["community:duplicate-report"]} :=
  c7_unknown_command c7xEnv _ "frobnicate" "do stuff" (by decide) (by decide) (by decide) (by decide)

/-- With null command data (`REPORT_BOT_COMMAND_DATA` unset) the webhook
gate always refuses, so cleanup of a command-less deletion dispatches no
webhook. -/
theorem sendHookEffects_none (env : Env) (log : String) :
    sendHookEffects env none log = [] := by
  simp [sendHookEffects, shouldSendWebhook]

/-- In a no-command cleanup pass, every effect is a label removal or a
reply deletion. -/
theorem undoAndClean_effects_none (env : Env) :
    ∀ (cs : List Comment) (st : IssueState),
      ∀ e ∈ (undoAndClean env none false cs st).2,
        (∃ l, e = Effect.removeLabelE l) ∨ (∃ i, e = Effect.deleteCommentE i) := by
  intro cs
  induction cs with
  | nil => intro st e he; simp [undoAndClean] at he
  | cons c rest ih =>
    intro st e he
    simp only [undoAndClean, List.mem_append] at he
    rcases he with (he | he) | he
    · -- effects of the undo step
      rcases hal : parseActionLog c.body.data with _ | al
      · rw [hal] at he; simp at he
      · rw [hal] at he
        by_cases hadd : al.1 = "add_label"
        · simp only [hadd, if_true, removeLabelF] at he
          by_cases hc : st.labels.contains al.2
          · simp only [hc, if_true, sendHookEffects_none] at he
            simp at he
            exact Or.inl ⟨al.2, he⟩
          · simp only [hc] at he
            simp at he
        · simp only [hadd] at he
          simp at he
    · -- the deletion of the reply itself
      simp only [Bool.false_eq_true, if_false] at he
      simp at he
      exact Or.inr ⟨c.id, he⟩
    · exact ih _ e he

/-- C5 (amended).  When no `/reportbot <name>` pattern is present, no
command is dispatched; for `created`/`edited` (indeed any non-`deleted`)
actions the run performs no tracker mutation at all, while for `deleted`
the run performs exactly the bot-reply cleanup: its only possible effects
are label removals and bot-reply deletions, and it does nothing when no
bot reply references the deleted comment's id. -/
theorem c5_no_command_frame (env : Env) (st : IssueState)
    (hp : parseCommand (jsTrimStr env.commentBody) = none) :
    (env.actionType ≠ "deleted" → runBot env st = (st, []))
    ∧ (∀ e ∈ (runBot env st).2,
        (∃ l, e = Effect.removeLabelE l) ∨ (∃ i, e = Effect.deleteCommentE i))
    ∧ (st.comments.filter
          (fun c => c.userLogin = env.botUser && containsStr c.body (triggerMarker env.commentId)) = [] →
        runBot env st = (st, [])) := by
  have hrun : runBot env st = (st, []) ∨
      runBot env st = removeReplyComments env none env.commentId false st := by
    unfold runBot
    by_cases hm : envMissing env = true
    · simp [hm]
    · by_cases hh : containsStr (jsTrimStr env.commentBody) BOT_COMMENT_HEADER = true
      · simp [hm, hh]
      · by_cases ha : env.actionType = "deleted"
        · simp [hm, hh, hp, ha]
        · simp [hm, hh, hp, ha]
  refine ⟨?_, ?_, ?_⟩
  · intro ha
    rcases hrun with h | h
    · exact h
    · -- in the non-deleted case the cleanup branch is unreachable
      unfold runBot
      by_cases hm : envMissing env = true
      · simp [hm]
      · by_cases hh : containsStr (jsTrimStr env.commentBody) BOT_COMMENT_HEADER = true
        · simp [hm, hh]
        · simp [hm, hh, hp, ha]
  · intro e he
    rcases hrun with h | h
    · rw [h] at he; simp at he
    · rw [h] at he
      exact undoAndClean_effects_none env _ st e he
  · intro hnone
    rcases hrun with h | h
    · exact h
    · rw [h, removeReplyComments, hnone]
      rfl

/-- C5 counterexample environment: a command-less comment body is deleted
(action `deleted`). -/
def c5xEnv : Env :=
  { owner := "DeckSettings", repo := "game-reports-steamos", issueNumber := 5,
    commentBody := "thanks, done!", commenter := "carol", commentId := 77,
    actionType := "deleted", botUser := "github-actions[bot]",
    issueAuthorId := some 1, commentUserId := some 2, webhookConfigured := false }

/-- C5 counterexample state: one bot reply (id 200) bound to comment 77
carrying an `add_label` trailer, and the corresponding label. -/
def c5xSt : IssueState :=
  { labels := ["community:improvements-suggested"],
    comments := [⟨200, "github-actions[bot]",
      postCommentBody "DeckSettings" "game-reports-steamos" 5 77
        "Label \"community:improvements-suggested\" applied"
        (some "ACTION=add_label LABEL=community:improvements-suggested")⟩],
    state := "open", authorLogin := "alice", deleted := false, nextCommentId := 300 }

/-- C5 counterexample: the deleted comment `thanks, done!` matches no
command, yet the run removes a label and deletes a comment — tracker
mutations — refuting the claim that no mutation occurs for any action
type. -/
theorem c5_counterexample :
    parseCommand (jsTrimStr c5xEnv.commentBody) = none
    ∧ runBot c5xEnv c5xSt
        = ({c5xSt with labels := [], comments := []},
           [Effect.removeLabelE "community:improvements-suggested", Effect.deleteCommentE 200]) :=
  ⟨by decide, by decide⟩

/-- Concrete instance of the amended C5: a command-less `created` comment
leaves the tracker untouched. -/
theorem c5_no_command_frame_witness :
    runBot {c5xEnv with actionType := "created"} c5xSt = (c5xSt, []) :=
  (c5_no_command_frame {c5xEnv with actionType := "created"} c5xSt (by decide)).1 (by decide)


theorem mem_sendHookEffects {env : Env} {cd : Option String} {log : String} {e : Effect}
    (he : e ∈ sendHookEffects env cd log) :
    shouldSendWebhook cd env.issueAuthorId env.commentUserId = true ∧ env.webhookConfigured = true := by
  unfold sendHookEffects at he
  split at he
  · next hcond => exact hcond
  · simp at he

theorem webhook_removeLabelF {env : Env} {cd : Option String} {l : String} {st : IssueState}
    {log : String} (he : Effect.webhookE log ∈ (removeLabelF env cd l st).2) :
    shouldSendWebhook cd env.issueAuthorId env.commentUserId = true ∧ env.webhookConfigured = true := by
  unfold removeLabelF at he
  split at he
  · simp only [List.mem_cons] at he
    rcases he with he | he
    · cases he
    · exact mem_sendHookEffects he
  · simp at he

theorem webhook_applyLabel {env : Env} {cd : Option String} {origId : Nat} {l : String}
    {st : IssueState} {log : String}
    (he : Effect.webhookE log ∈ (applyLabel env cd origId l st).2) :
    shouldSendWebhook cd env.issueAuthorId env.commentUserId = true ∧ env.webhookConfigured = true := by
  simp only [applyLabel, postComment, List.mem_append, List.mem_cons, List.mem_singleton,
    List.not_mem_nil, reduceCtorEq, false_or, or_false] at he
  exact mem_sendHookEffects he

theorem webhook_undoAndClean {env : Env} {cd : Option String} {keep : Bool} :
    ∀ (cs : List Comment) (st : IssueState) (log : String),
      Effect.webhookE log ∈ (undoAndClean env cd keep cs st).2 →
      shouldSendWebhook cd env.issueAuthorId env.commentUserId = true ∧ env.webhookConfigured = true := by
  intro cs
  induction cs with
  | nil => intro st log he; simp [undoAndClean] at he
  | cons c rest ih =>
    intro st log he
    simp only [undoAndClean, List.mem_append] at he
    rcases he with (he | he) | he
    · rcases hal : parseActionLog c.body.data with _ | al
      · rw [hal] at he; simp at he
      · rw [hal] at he
        by_cases hadd : al.1 = "add_label"
        · simp only [hadd, if_true] at he
          exact webhook_removeLabelF he
        · simp only [hadd, Bool.false_eq_true, if_false] at he
          simp at he
    · by_cases hk : keep = true
      · simp only [hk, if_true, List.mem_singleton] at he; cases he
      · simp only [eq_false_of_ne_true hk, Bool.false_eq_true, if_false, List.mem_singleton] at he
        cases he
    · exact ih _ _ he

theorem webhook_postComment {env : Env} {origId : Nat} {b : String} {al : Option String}
    {st : IssueState} {log : String}
    (he : Effect.webhookE log ∈ (postComment env origId b al st).2) : False := by
  simp [postComment] at he

theorem webhook_doResolve {env : Env} {toRemove : List String} {st : IssueState} {log : String}
    (he : Effect.webhookE log ∈ (doResolve env toRemove st).2) : False := by
  unfold doResolve at he
  simp only [List.mem_append, postComment, List.mem_singleton, List.mem_map] at he
  rcases he with ⟨l, _, he⟩ | he <;> cases he



theorem webhook_runBot (env : Env) (st : IssueState) (log : String)
    (hmem : Effect.webhookE log ∈ (runBot env st).2) :
    (∃ cmd desc, parseCommand (jsTrimStr env.commentBody) = some (cmd, desc)
       ∧ shouldSendWebhook (some cmd) env.issueAuthorId env.commentUserId = true)
    ∧ env.webhookConfigured = true := by
  unfold runBot at hmem
  by_cases hm : envMissing env = true
  · simp [hm] at hmem
  by_cases hh : containsStr (jsTrimStr env.commentBody) BOT_COMMENT_HEADER = true
  · simp [hm, hh] at hmem
  rcases hp : parseCommand (jsTrimStr env.commentBody) with _ | ⟨cmd, desc⟩ <;>
    simp only [hm, hh, hp, Bool.false_eq_true, if_false] at hmem
  · -- no command: only the `deleted` cleanup with null command data is reachable
    by_cases ha : env.actionType = "deleted"
    · simp only [ha, if_true, removeReplyComments] at hmem
      have h := (webhook_undoAndClean _ _ _ hmem).1
      simp [shouldSendWebhook] at h
    · simp [ha] at hmem
  · refine ?_
    have hgoal : shouldSendWebhook (some cmd) env.issueAuthorId env.commentUserId = true
        ∧ env.webhookConfigured = true := by
      rcases hv : validCommands cmd with _ | cfg <;>
        simp only [hv] at hmem
      · exact absurd hmem webhook_postComment
      · by_cases hac : env.actionType = "created"
        · simp only [hac, if_true] at hmem
          by_cases hhelp : cmd = "help"
          · simp only [hhelp, if_true] at hmem
            exact absurd hmem webhook_postComment
          simp only [hhelp, Bool.false_eq_true, if_false] at hmem
          by_cases hres : cmd = "resolve"
          · simp only [hres, if_true] at hmem
            by_cases hau : env.commenter ≠ st.authorLogin
            · simp only [if_pos hau] at hmem
              exact absurd hmem webhook_postComment
            simp only [if_neg hau] at hmem
            by_cases hd : desc = ""
            · simp only [hd, if_true] at hmem
              exact absurd hmem webhook_postComment
            simp only [hd, Bool.false_eq_true, if_false] at hmem
            by_cases hall : lowerStr desc = "all"
            · simp only [hall, if_true] at hmem
              exact absurd hmem webhook_doResolve
            simp only [hall, Bool.false_eq_true, if_false] at hmem
            by_cases hto : (normalizeRequestedLabels desc getManagedCommunityLabels).isEmpty = true
            · simp only [hto, if_true] at hmem
              exact absurd hmem webhook_postComment
            · simp only [hto, Bool.false_eq_true, if_false] at hmem
              exact absurd hmem webhook_doResolve
          simp only [hres, Bool.false_eq_true, if_false] at hmem
          by_cases hdel : cmd = "delete"
          · simp only [hdel, if_true] at hmem
            by_cases hau : env.commenter ≠ st.authorLogin
            · simp only [if_pos hau] at hmem
              exact absurd hmem webhook_postComment
            simp only [if_neg hau] at hmem
            by_cases hc : lowerStr desc ≠ "confirm"
            · simp only [if_pos hc] at hmem
              exact absurd hmem webhook_postComment
            simp only [if_neg hc] at hmem
            by_cases hs : lowerStr st.state ≠ "closed"
            · simp only [if_pos hs] at hmem
              exact absurd hmem webhook_postComment
            · simp only [if_neg hs, List.mem_singleton] at hmem
              cases hmem
          simp only [hdel, Bool.false_eq_true, if_false] at hmem
          by_cases hd : desc = ""
          · simp only [hd, if_true] at hmem
            exact absurd hmem webhook_postComment
          simp only [hd, Bool.false_eq_true, if_false] at hmem
          rcases hl : cfg.label with _ | l <;> simp only [hl] at hmem
          · simp at hmem
          · exact webhook_applyLabel hmem
        · simp only [hac, Bool.false_eq_true, if_false] at hmem
          by_cases had : env.actionType = "deleted"
          · simp only [had, if_true, removeReplyComments] at hmem
            exact webhook_undoAndClean _ _ _ hmem
          simp only [had, Bool.false_eq_true, if_false] at hmem
          by_cases hae : env.actionType = "edited"
          · simp only [hae, if_true] at hmem
            by_cases hrv : containsStr (jsTrimStr env.commentBody) "[RESOLVED]" = true
            · simp only [hrv, if_true, removeReplyComments] at hmem
              exact webhook_undoAndClean _ _ _ hmem
            · simp only [hrv, Bool.false_eq_true, if_false] at hmem
              simp at hmem
          · simp only [hae, Bool.false_eq_true, if_false] at hmem
            simp at hmem
    exact ⟨⟨cmd, desc, rfl, hgoal.1⟩, hgoal.2⟩

/-- C8.  The outbound webhook is dispatched only when all three gates
hold — command not in the ignore-list, configured role not "author", and
commenter identity differing (in JS `===` terms) from the issue author's
identity; any webhook effect of a whole run implies the gates (and the
configured endpoint); and `sendHook` never propagates a delivery failure:
it returns normally with the same effects for both delivery outcomes. -/
theorem c8_webhook_gating :
    (∀ (cmd : String) (a b : Option Nat),
       shouldSendWebhook (some cmd) a b = true →
         WEBHOOK_IGNORED_COMMANDS.contains cmd = false
         ∧ (∀ cfg, validCommands cmd = some cfg → cfg.role ≠ some "author")
         ∧ jsNumEq a b = false)
    ∧ (∀ env st log, Effect.webhookE log ∈ (runBot env st).2 →
        (∃ cmd desc, parseCommand (jsTrimStr env.commentBody) = some (cmd, desc)
           ∧ shouldSendWebhook (some cmd) env.issueAuthorId env.commentUserId = true)
        ∧ env.webhookConfigured = true)
    ∧ (∀ env cd log deliveryOk,
        sendHookRun env cd log deliveryOk = Except.ok (sendHookEffects env cd log)) := by
  refine ⟨?_, webhook_runBot, ?_⟩
  · intro cmd a b h
    unfold shouldSendWebhook at h
    by_cases h1 : cmd = ""
    · simp [h1] at h
    by_cases h2 : WEBHOOK_IGNORED_COMMANDS.contains cmd = true
    · simp [h1, h2] at h
      exact absurd (by simpa using h2) h.1
    refine ⟨by simpa using h2, ?_, ?_⟩
    · intro cfg hv
      rcases hv' : validCommands cmd with _ | cfg'
      · rw [hv'] at hv; cases hv
      · rw [hv'] at hv
        injection hv with hv
        subst hv
        intro hr
        simp [h1, h2, hv', hr] at h
    · rcases hv' : validCommands cmd with _ | cfg'
      · simp only [h1, h2, hv', Bool.false_eq_true, if_false] at h
        simpa using h
      · by_cases hr : cfg'.role = some "author"
        · simp [h1, h2, hv', hr] at h
        · simp only [h1, h2, hv', hr, Bool.false_eq_true, if_false] at h
          simpa using h
  · intro env cd log deliveryOk
    unfold sendHookRun sendHookEffects webhookRequest
    by_cases hs : shouldSendWebhook cd env.issueAuthorId env.commentUserId = true
    · by_cases hw : env.webhookConfigured = true
      · cases deliveryOk <;> simp [hs, hw]
      · simp [hs, hw]
    · simp [hs]

/-- C8 witness environment: `mark-duplicate` from a commenter distinct
from the author, with the webhook endpoint configured. -/
def c8wEnv : Env :=
  { owner := "DeckSettings", repo := "game-reports-steamos", issueNumber := 5,
    commentBody := "/reportbot mark-duplicate same as #123", commenter := "bob", commentId := 31,
    actionType := "created", botUser := "github-actions[bot]",
    issueAuthorId := some 1, commentUserId := some 2, webhookConfigured := true }

/-- C8 witness state. -/
def c8wSt : IssueState :=
  { labels := [], comments := [], state := "open", authorLogin := "alice",
    deleted := false, nextCommentId := 40 }

/-- Concrete instance of C8: the gates derived from a passing
`shouldSendWebhook`, a webhook effect of a real run implying the gates,
and the caught delivery failure. -/
theorem c8_webhook_gating_witness :
    (WEBHOOK_IGNORED_COMMANDS.contains "mark-duplicate" = false
      ∧ (∀ cfg, validCommands "mark-duplicate" = some cfg → cfg.role ≠ some "author")
      ∧ jsNumEq (some 1) (some 2) = false)
    ∧ ((∃ cmd desc, parseCommand (jsTrimStr c8wEnv.commentBody) = some (cmd, desc)
          ∧ shouldSendWebhook (some cmd) c8wEnv.issueAuthorId c8wEnv.commentUserId = true)
        ∧ c8wEnv.webhookConfigured = true)
    ∧ sendHookRun c8wEnv (some "mark-duplicate") "ACTION=add_label LABEL=community:duplicate-report" false
        = Except.ok (sendHookEffects c8wEnv (some "mark-duplicate") "ACTION=add_label LABEL=community:duplicate-report") :=
  ⟨c8_webhook_gating.1 "mark-duplicate" (some 1) (some 2) (by decide),
   c8_webhook_gating.2.1 c8wEnv c8wSt "ACTION=add_label LABEL=community:duplicate-report" (by decide),
   c8_webhook_gating.2.2 c8wEnv (some "mark-duplicate") _ false⟩

/-- C10 environment: deletion of the command-less comment with id `m`. -/
def c10Env (m : Nat) : Env :=
  { owner := "DeckSettings", repo := "game-reports-steamos", issueNumber := 5,
    commentBody := "bye", commenter := "carol", commentId := m,
    actionType := "deleted", botUser := "github-actions[bot]",
    issueAuthorId := some 1, commentUserId := some 2, webhookConfigured := false }

/-- C10 state: a single bot reply (id 200) whose footer names the
triggering comment id `n`, with the logged label on the issue. -/
def c10St (n : Nat) : IssueState :=
  { labels := ["community:verification-suggested"],
    comments := [⟨200, "github-actions[bot]",
      postCommentBody "DeckSettings" "game-reports-steamos" 5 n
        "Label \"community:verification-suggested\" applied"
        (some "ACTION=add_label LABEL=community:verification-suggested")⟩],
    state := "open", authorLogin := "alice", deleted := false, nextCommentId := 300 }

/-- C10.  The cleanup's substring search
`*This comment was triggered by comment ID: <id>` is unterminated, so
there are distinct ids `m`, `n` with the decimal representation of `m` a
proper prefix of that of `n` (here 12 and 123) for which processing the
deletion of comment `m` undoes the `add_label` action logged by comment
`n`'s bot reply and deletes that reply. -/
theorem c10_prefix_cleanup :
    ∃ m n : Nat, m ≠ n
      ∧ (toString m).data.isPrefixOf (toString n).data = true
      ∧ containsStr (postCommentBody "DeckSettings" "game-reports-steamos" 5 n
            "Label \"community:verification-suggested\" applied"
            (some "ACTION=add_label LABEL=community:verification-suggested"))
          (triggerMarker m) = true
      ∧ runBot (c10Env m) (c10St n)
          = ({c10St n with labels := [], comments := []},
             [Effect.removeLabelE "community:verification-suggested", Effect.deleteCommentE 200]) :=
  ⟨12, 123, by decide, by decide, by decide, by decide⟩


theorem resolveLabelsGo_removed (present : List String) :
    ∀ (labels cur : List String),
      (resolveLabelsGo present labels cur).2.1 = labels.filter (present.contains ·) := by
  intro labels
  induction labels with
  | nil => intro cur; rfl
  | cons label rest ih =>
    intro cur
    rw [List.filter_cons]
    by_cases hc : present.contains label = true
    · rw [resolveLabelsGo, if_pos hc, if_pos hc]
      exact congrArg (label :: ·) (ih _)
    · rw [resolveLabelsGo, if_neg hc, if_neg hc]
      exact ih _

theorem resolveLabelsGo_missing (present : List String) :
    ∀ (labels cur : List String),
      (resolveLabelsGo present labels cur).2.2 = labels.filter (fun l => !present.contains l) := by
  intro labels
  induction labels with
  | nil => intro cur; rfl
  | cons label rest ih =>
    intro cur
    rw [List.filter_cons]
    by_cases hc : present.contains label = true
    · rw [resolveLabelsGo, if_pos hc, hc]
      exact ih _
    · rw [resolveLabelsGo, if_neg hc, eq_false_of_ne_true hc]
      exact congrArg (label :: ·) (ih _)

theorem resolveLabelsGo_fin (present : List String) :
    ∀ (labels cur : List String), cur.Nodup →
      (resolveLabelsGo present labels cur).1
        = cur.filter (fun l => !(labels.contains l && present.contains l)) := by
  intro labels
  induction labels with
  | nil =>
    intro cur _
    exact (List.filter_eq_self.mpr (fun a _ => rfl)).symm
  | cons label rest ih =>
    intro cur hnd
    by_cases hc : present.contains label = true
    · rw [resolveLabelsGo, if_pos hc]
      show (resolveLabelsGo present rest (cur.erase label)).1 = _
      rw [ih (cur.erase label) (List.Nodup.erase label hnd),
        List.Nodup.erase_eq_filter hnd, List.filter_filter]
      apply List.filter_congr
      intro x hx
      by_cases hxl : x = label
      · subst hxl
        have hmem : x ∈ present := List.elem_iff.mp hc
        simp [hc, hmem, List.contains_cons]
      · have hne : (x == label) = false := by simpa using hxl
        simp [List.contains_cons, hne, hxl]
    · rw [resolveLabelsGo, if_neg hc]
      show (resolveLabelsGo present rest cur).1 = _
      rw [ih cur hnd]
      apply List.filter_congr
      intro x hx
      by_cases hxl : x = label
      · subst hxl
        have hcf : present.contains x = false := eq_false_of_ne_true hc
        have hnm : x ∉ present := fun hm => hc (List.elem_iff.mpr hm)
        simp [List.contains_cons, hcf, hnm]
      · have hne : (x == label) = false := by simpa using hxl
        simp [List.contains_cons, hne, hxl]

theorem intercalate_single (s L : String) : String.intercalate s [L] = L := by
  simp [String.intercalate, String.intercalate.go]



theorem mem_dedupAux : ∀ (l seen : List String) (x : String), x ∈ dedupAux l seen → x ∈ l := by
  intro l
  induction l with
  | nil => intro seen x hx; simp [dedupAux] at hx
  | cons a rest ih =>
    intro seen x hx
    rw [dedupAux] at hx
    by_cases hs : seen.contains a = true
    · rw [if_pos hs] at hx
      exact List.mem_cons_of_mem a (ih _ x hx)
    · rw [if_neg hs] at hx
      rcases List.mem_cons.mp hx with h | h
      · exact h ▸ List.mem_cons_self a rest
      · exact List.mem_cons_of_mem a (ih _ x h)

/-- Soundness of `normalizeRequestedLabels`: every produced label is a
managed label matched case-insensitively by some token of the input. -/
theorem normalize_mem {input : String} {managed : List String} {l : String}
    (h : l ∈ normalizeRequestedLabels input managed) :
    l ∈ managed ∧ ∃ tok ∈ tokenize input.data, lowerStr l = lowerStr (String.mk tok) := by
  unfold normalizeRequestedLabels at h
  have h1 := mem_dedupAux _ _ _ h
  rw [List.mem_filterMap] at h1
  obtain ⟨req, hreq, hfind⟩ := h1
  refine ⟨List.mem_of_find?_eq_some hfind, ?_⟩
  rw [List.mem_map] at hreq
  obtain ⟨tok, htok, rfl⟩ := hreq
  exact ⟨tok, htok, by simpa using List.find?_some hfind⟩

/-- C6.  Resolving a managed label that is absent from the issue reports
it under "Not present" and performs no tracker mutation beyond that single
report reply: the label set is unchanged and the run's only effect is the
reply creation. -/
theorem c6_resolve_absent (env : Env) (st : IssueState) (desc L : String)
    (h0 : envMissing env = false)
    (h1 : containsStr (jsTrimStr env.commentBody) BOT_COMMENT_HEADER = false)
    (h2 : parseCommand (jsTrimStr env.commentBody) = some ("resolve", desc))
    (h3 : env.actionType = "created")
    (h4 : env.commenter = st.authorLogin)
    (h5 : desc ≠ "")
    (h6 : lowerStr desc ≠ "all")
    (h7 : normalizeRequestedLabels desc getManagedCommunityLabels = [L])
    (h8 : st.labels.contains L = false) :
    runBot env st
      = postComment env env.commentId (resolveReplyBody [] [L])
          (some ("ACTION=resolve LABELS=" ++ String.intercalate "," [L])) st
    ∧ (runBot env st).1.labels = st.labels
    ∧ (runBot env st).2
        = [Effect.createCommentE
            (postCommentBody env.owner env.repo env.issueNumber env.commentId
              (resolveReplyBody [] [L]) (some ("ACTION=resolve LABELS=" ++ String.intercalate "," [L])))]
    ∧ resolveReplyBody [] [L] = "ℹ️ Not present: `" ++ L ++ "`" := by
  have hmain : runBot env st
      = postComment env env.commentId (resolveReplyBody [] [L])
          (some ("ACTION=resolve LABELS=" ++ String.intercalate "," [L])) st := by
    unfold runBot
    simp only [h0, h1, h2, h3, h4, h5, h6, h7, Bool.false_eq_true, if_false, ne_eq,
      not_true_eq_false, not_false_eq_true]
    simp only [validCommands, commandTable, List.find?, String.reduceEq, decide_True,
      decide_False, Option.map_some]
    simp only [List.isEmpty_cons, Bool.false_eq_true, if_false]
    unfold doResolve resolveLabels resolveLabelsGo
    simp only [h8, Bool.false_eq_true, if_false]
    simp only [Option.map_some', if_true, resolveLabelsGo, List.map_nil, List.nil_append]
  refine ⟨hmain, by rw [hmain]; rfl, by rw [hmain]; rfl, ?_⟩
  simp [resolveReplyBody, intercalate_single]



/-- C6 witness environment: the author resolves an absent managed label. -/
def c6wEnv : Env :=
  { owner := "DeckSettings", repo := "game-reports-steamos", issueNumber := 5,
    commentBody := "/reportbot resolve community:clarification-requested", commenter := "alice",
    commentId := 31, actionType := "created", botUser := "github-actions[bot]",
    issueAuthorId := some 1, commentUserId := some 1, webhookConfigured := false }

/-- C6 witness state: the requested label is not on the issue. -/
def c6wSt : IssueState :=
  { labels := ["community:duplicate-report"], comments := [], state := "open",
    authorLogin := "alice", deleted := false, nextCommentId := 40 }

/-- Concrete instance of C6. -/
theorem c6_resolve_absent_witness :
    (runBot c6wEnv c6wSt).1.labels = c6wSt.labels
    ∧ resolveReplyBody [] ["community:clarification-requested"]
        = "ℹ️ Not present: `community:clarification-requested`" := by
  have h := c6_resolve_absent c6wEnv c6wSt "community:clarification-requested"
    "community:clarification-requested" (by decide) (by decide) (by decide) rfl rfl
    (by decide) (by decide) (by decide) (by decide)
  exact ⟨h.2.1, h.2.2.2⟩



/-- Full characterization of `resolveLabels` on a duplicate-free label
list: survivors, removed, and missing are the evident filters. -/
theorem resolveLabels_eq (labels0 toRemove : List String) (h : labels0.Nodup) :
    resolveLabels labels0 toRemove
      = (labels0.filter (fun l => !toRemove.contains l),
         toRemove.filter (fun l => labels0.contains l),
         toRemove.filter (fun l => !labels0.contains l)) := by
  have h1 := resolveLabelsGo_fin labels0 toRemove labels0 h
  have h2 := resolveLabelsGo_removed labels0 toRemove labels0
  have h3 := resolveLabelsGo_missing labels0 toRemove labels0
  have hsplit : resolveLabels labels0 toRemove
      = ((resolveLabelsGo labels0 toRemove labels0).1,
         (resolveLabelsGo labels0 toRemove labels0).2.1,
         (resolveLabelsGo labels0 toRemove labels0).2.2) := rfl
  rw [hsplit, h1, h2, h3]
  refine congrArg₂ Prod.mk ?_ rfl
  apply List.filter_congr
  intro x hx
  have hc : labels0.contains x = true := List.elem_iff.mpr hx
  rw [hc, Bool.and_true]

/-- C4.  `resolve all` from the author targets exactly the managed-label
set: every managed label present is removed (the survivors are the
non-managed labels) and the reply reports the absent managed labels under
"Not present"; with an explicit argument list, every label the run removes
is a managed label, present on the issue, matched case-insensitively by a
comma/whitespace-separated token of the argument. -/
theorem c4_resolve_targets (env : Env) (st : IssueState) (desc : String)
    (h0 : envMissing env = false)
    (h1 : containsStr (jsTrimStr env.commentBody) BOT_COMMENT_HEADER = false)
    (h2 : parseCommand (jsTrimStr env.commentBody) = some ("resolve", desc))
    (h3 : env.actionType = "created")
    (h4 : env.commenter = st.authorLogin)
    (h5 : desc ≠ "")
    (h6 : st.labels.Nodup) :
    (lowerStr desc = "all" →
       runBot env st = doResolve env getManagedCommunityLabels st
       ∧ resolveLabels st.labels getManagedCommunityLabels
           = (st.labels.filter (fun l => !getManagedCommunityLabels.contains l),
              getManagedCommunityLabels.filter (fun l => st.labels.contains l),
              getManagedCommunityLabels.filter (fun l => !st.labels.contains l))
       ∧ (runBot env st).1.labels = st.labels.filter (fun l => !getManagedCommunityLabels.contains l)
       ∧ (runBot env st).1.comments
           = st.comments ++ [⟨st.nextCommentId, env.botUser,
               postCommentBody env.owner env.repo env.issueNumber env.commentId
                 (resolveReplyBody (getManagedCommunityLabels.filter (fun l => st.labels.contains l))
                   (getManagedCommunityLabels.filter (fun l => !st.labels.contains l)))
                 (some ("ACTION=resolve LABELS=" ++ String.intercalate "," getManagedCommunityLabels))⟩])
    ∧ (lowerStr desc ≠ "all" →
       ∀ l, Effect.removeLabelE l ∈ (runBot env st).2 →
         l ∈ getManagedCommunityLabels ∧ l ∈ st.labels
         ∧ ∃ tok ∈ tokenize desc.data, lowerStr l = lowerStr (String.mk tok)) := by
  constructor
  · intro hall
    have hrun : runBot env st = doResolve env getManagedCommunityLabels st := by
      unfold runBot
      simp only [h0, h1, h2, h3, h4, h5, hall, Bool.false_eq_true, if_false, ne_eq,
        not_true_eq_false, not_false_eq_true]
      simp only [validCommands, commandTable, List.find?, String.reduceEq, decide_True,
        decide_False, Option.map_some', if_true, if_false]
    have htriple := resolveLabels_eq st.labels getManagedCommunityLabels h6
    refine ⟨hrun, htriple, ?_, ?_⟩
    · rw [hrun]
      have hl : (doResolve env getManagedCommunityLabels st).1.labels
          = (resolveLabels st.labels getManagedCommunityLabels).1 := rfl
      rw [hl, htriple]
    · rw [hrun]
      have hcm : (doResolve env getManagedCommunityLabels st).1.comments
          = st.comments ++ [⟨st.nextCommentId, env.botUser,
              postCommentBody env.owner env.repo env.issueNumber env.commentId
                (resolveReplyBody (resolveLabels st.labels getManagedCommunityLabels).2.1
                  (resolveLabels st.labels getManagedCommunityLabels).2.2)
                (some ("ACTION=resolve LABELS=" ++ String.intercalate "," getManagedCommunityLabels))⟩] := rfl
      rw [hcm, htriple]
  · intro hnall l hmem
    by_cases hempty : (normalizeRequestedLabels desc getManagedCommunityLabels).isEmpty = true
    · have hrun : runBot env st
          = postComment env env.commentId (noValidLabelsBody env.commenter getManagedCommunityLabels) none st := by
        unfold runBot
        simp only [h0, h1, h2, h3, h4, h5, hnall, hempty, Bool.false_eq_true, if_false, ne_eq,
          not_true_eq_false, not_false_eq_true, if_true]
        simp only [validCommands, commandTable, List.find?, String.reduceEq, decide_True,
          decide_False, Option.map_some', if_true, if_false]
      rw [hrun] at hmem
      simp [postComment] at hmem
    · have hrun : runBot env st
          = doResolve env (normalizeRequestedLabels desc getManagedCommunityLabels) st := by
        unfold runBot
        simp only [h0, h1, h2, h3, h4, h5, hnall, hempty, Bool.false_eq_true, if_false, ne_eq,
          not_true_eq_false, not_false_eq_true, if_true]
        simp only [validCommands, commandTable, List.find?, String.reduceEq, decide_True,
          decide_False, Option.map_some', if_true, if_false]
      rw [hrun] at hmem
      simp only [doResolve, postComment, List.mem_append, List.mem_map, List.mem_singleton,
        reduceCtorEq, or_false, Effect.removeLabelE.injEq] at hmem
      obtain ⟨a, ha, rfl⟩ := hmem
      have hrem : (resolveLabels st.labels (normalizeRequestedLabels desc getManagedCommunityLabels)).2.1
          = (normalizeRequestedLabels desc getManagedCommunityLabels).filter
              (fun x => st.labels.contains x) := resolveLabelsGo_removed _ _ _
      rw [hrem] at ha
      have hmf := List.mem_filter.mp ha
      have hn := normalize_mem hmf.1
      exact ⟨hn.1, List.elem_iff.mp hmf.2, hn.2⟩



/-- C4 witness environment (the `all` form). -/
def c4wEnv : Env :=
  { owner := "DeckSettings", repo := "game-reports-steamos", issueNumber := 5,
    commentBody := "/reportbot resolve all", commenter := "alice", commentId := 31,
    actionType := "created", botUser := "github-actions[bot]",
    issueAuthorId := some 1, commentUserId := some 1, webhookConfigured := false }

/-- C4 witness environment (the explicit-list form, with a
case-mismatched managed label and a junk token). -/
def c4wEnv2 : Env :=
  {c4wEnv with commentBody := "/reportbot resolve Community:Duplicate-Report junk"}

/-- C4 witness state: two managed labels and one foreign label. -/
def c4wSt : IssueState :=
  { labels := ["community:duplicate-report", "note:other", "community:verification-suggested"],
    comments := [], state := "open", authorLogin := "alice", deleted := false,
    nextCommentId := 40 }

/-- Concrete instance of C4: `resolve all` leaves exactly the non-managed
label, and the explicit case-insensitive list removes only the matched
managed label. -/
theorem c4_resolve_targets_witness :
    (runBot c4wEnv c4wSt).1.labels = ["note:other"]
    ∧ ("community:duplicate-report" ∈ getManagedCommunityLabels
        ∧ "community:duplicate-report" ∈ c4wSt.labels
        ∧ ∃ tok ∈ tokenize "Community:Duplicate-Report junk".data,
            lowerStr "community:duplicate-report" = lowerStr (String.mk tok)) := by
  constructor
  · have h := (c4_resolve_targets c4wEnv c4wSt "all" (by decide) (by decide) (by decide)
      rfl rfl (by decide) (by decide)).1 (by decide)
    rw [h.2.2.1]
    decide
  · exact (c4_resolve_targets c4wEnv2 c4wSt "Community:Duplicate-Report junk" (by decide)
      (by decide) (by decide) rfl rfl (by decide) (by decide)).2 (by decide)
      "community:duplicate-report" (by decide)



/-- C3 environment: the `suggest-verification` comment (id 500) of the
round-trip scenario, parameterized by the delivered action type. -/
def c3Env (action : String) : Env :=
  { owner := "DeckSettings", repo := "game-reports-steamos", issueNumber := 7,
    commentBody := "/reportbot suggest-verification Fix power draw", commenter := "bob",
    commentId := 500, actionType := action, botUser := "github-actions[bot]",
    issueAuthorId := some 1, commentUserId := some 1, webhookConfigured := false }

/-- The body of the bot reply the round trip creates. -/
def c3ReplyBody : String :=
  postCommentBody "DeckSettings" "game-reports-steamos" 7 500
    "Label \"community:verification-suggested\" applied"
    (some "ACTION=add_label LABEL=community:verification-suggested")

/-- The bot reply the round trip creates, with tracker-assigned id `n`. -/
def c3Reply (n : Nat) : Comment := ⟨n, "github-actions[bot]", c3ReplyBody⟩

/-- The state after the first half of the round trip. -/
def c3Mid (st : IssueState) : IssueState :=
  {st with labels := st.labels ++ ["community:verification-suggested"],
           comments := st.comments ++ [c3Reply st.nextCommentId],
           nextCommentId := st.nextCommentId + 1}

/-- C3.  Round trip: processing the created comment
`/reportbot suggest-verification Fix power draw` adds
`community:verification-suggested` and creates exactly one bot reply,
whose trailer parses as the `add_label` undo record; processing the
deletion of that same comment then removes the label and deletes the
reply, restoring the label list and the comment list to their prior
values. -/
theorem c3_round_trip (st : IssueState)
    (hL : "community:verification-suggested" ∉ st.labels)
    (hC : ∀ c ∈ st.comments,
        ¬(c.userLogin = "github-actions[bot]" ∧ containsStr c.body (triggerMarker 500) = true))
    (hI : ∀ c ∈ st.comments, c.id < st.nextCommentId) :
    runBot (c3Env "created") st
      = (c3Mid st,
         [Effect.addLabelE "community:verification-suggested",
          Effect.createCommentE c3ReplyBody])
    ∧ parseActionLog c3ReplyBody.data
        = some ("add_label", "community:verification-suggested")
    ∧ (runBot (c3Env "deleted") (c3Mid st)).1.labels = st.labels
    ∧ (runBot (c3Env "deleted") (c3Mid st)).1.comments = st.comments
    ∧ (runBot (c3Env "deleted") (c3Mid st)).2
        = [Effect.removeLabelE "community:verification-suggested",
           Effect.deleteCommentE st.nextCommentId] := by
  have hcon : st.labels.contains "community:verification-suggested" = false :=
    Bool.eq_false_iff.mpr (fun h => hL (List.elem_iff.mp h))
  have e0 : envMissing (c3Env "created") = false := by decide
  have e1 : containsStr (jsTrimStr (c3Env "created").commentBody) BOT_COMMENT_HEADER = false := by
    decide
  have e2 : parseCommand (jsTrimStr (c3Env "created").commentBody)
      = some ("suggest-verification", "Fix power draw") := by decide
  have e3 : (c3Env "created").actionType = "created" := rfl
  have ehook : ∀ log, sendHookEffects (c3Env "created") (some "suggest-verification") log = [] := by
    intro log
    simp [sendHookEffects, c3Env]
  have hrun1 : runBot (c3Env "created") st
      = (c3Mid st,
         [Effect.addLabelE "community:verification-suggested",
          Effect.createCommentE c3ReplyBody]) := by
    unfold runBot
    simp only [e0, e1, e2, e3, Bool.false_eq_true, if_false, if_true]
    simp only [validCommands, commandTable, List.find?, String.reduceEq, decide_True,
      decide_False, Option.map_some', if_true, if_false]
    simp only [applyLabel, postComment, hcon, Bool.false_eq_true, if_false, ehook]
    rfl
  refine ⟨hrun1, by decide, ?_⟩
  -- second half: deletion cleanup
  have e0' : envMissing (c3Env "deleted") = false := by decide
  have e1' : containsStr (jsTrimStr (c3Env "deleted").commentBody) BOT_COMMENT_HEADER = false := by
    decide
  have e2' : parseCommand (jsTrimStr (c3Env "deleted").commentBody)
      = some ("suggest-verification", "Fix power draw") := by decide
  have e3' : (c3Env "deleted").actionType = "deleted" := rfl
  have hrun2 : runBot (c3Env "deleted") (c3Mid st)
      = removeReplyComments (c3Env "deleted") (some "suggest-verification") 500 false (c3Mid st) := by
    unfold runBot
    simp only [e0', e1', e2', e3', Bool.false_eq_true, if_false, if_true]
    simp only [validCommands, commandTable, List.find?, String.reduceEq, decide_True,
      decide_False, Option.map_some', if_true, if_false]
    rfl
  have hfilter1 : st.comments.filter
      (fun c => c.userLogin = (c3Env "deleted").botUser
        && containsStr c.body (triggerMarker 500)) = [] := by
    apply List.filter_eq_nil_iff.mpr
    intro c hc hpred
    have hp : decide (c.userLogin = (c3Env "deleted").botUser) = true
        ∧ containsStr c.body (triggerMarker 500) = true := Bool.and_eq_true _ _ ▸ hpred
    exact hC c hc ⟨of_decide_eq_true hp.1, hp.2⟩
  have hfilter2 : List.filter
      (fun c => c.userLogin = (c3Env "deleted").botUser
        && containsStr c.body (triggerMarker 500)) [c3Reply st.nextCommentId]
      = [c3Reply st.nextCommentId] := by
    apply List.filter_eq_self.mpr
    intro c hc
    rw [List.mem_singleton.mp hc]
    show (decide (("github-actions[bot]" : String) = "github-actions[bot]")
      && containsStr c3ReplyBody (triggerMarker 500)) = true
    decide
  have hbots : removeReplyComments (c3Env "deleted") (some "suggest-verification") 500 false (c3Mid st)
      = undoAndClean (c3Env "deleted") (some "suggest-verification") false
          [c3Reply st.nextCommentId] (c3Mid st) := by
    unfold removeReplyComments
    rw [show (c3Mid st).comments = st.comments ++ [c3Reply st.nextCommentId] from rfl]
    rw [List.filter_append, hfilter1, hfilter2, List.nil_append]
  have hparse : parseActionLog c3ReplyBody.data
      = some ("add_label", "community:verification-suggested") := by decide
  have hcontains : (st.labels ++ ["community:verification-suggested"]).contains
      "community:verification-suggested" = true :=
    List.elem_iff.mpr (List.mem_append.mpr (Or.inr (List.mem_singleton.mpr rfl)))
  have herase : (st.labels ++ ["community:verification-suggested"]).erase
      "community:verification-suggested" = st.labels := by
    rw [List.erase_append_right _ hL]
    rw [show (["community:verification-suggested"] : List String).erase
      "community:verification-suggested" = [] from by decide]
    exact List.append_nil _
  have ehook' : ∀ log, sendHookEffects (c3Env "deleted") (some "suggest-verification") log = [] := by
    intro log
    simp [sendHookEffects, c3Env]
  have hfilter3 : ((st.comments
        ++ [(⟨st.nextCommentId, "github-actions[bot]", c3ReplyBody⟩ : Comment)]).filter
        (fun d => d.id ≠ st.nextCommentId)) = st.comments := by
    rw [List.filter_append]
    have ha : st.comments.filter (fun d => d.id ≠ st.nextCommentId) = st.comments := by
      apply List.filter_eq_self.mpr
      intro d hd
      exact decide_eq_true (Nat.ne_of_lt (hI d hd))
    have hb : List.filter (fun d => d.id ≠ st.nextCommentId)
        [(⟨st.nextCommentId, "github-actions[bot]", c3ReplyBody⟩ : Comment)] = [] := by
      simp
    rw [ha, hb, List.append_nil]
  have hclean : undoAndClean (c3Env "deleted") (some "suggest-verification") false
      [c3Reply st.nextCommentId] (c3Mid st)
      = ({(c3Mid st) with labels := st.labels, comments := st.comments},
         [Effect.removeLabelE "community:verification-suggested",
          Effect.deleteCommentE st.nextCommentId]) := by
    simp only [undoAndClean, hparse, String.reduceEq, if_true, removeLabelF, hcontains,
      herase, ehook', Bool.false_eq_true, if_false, c3Reply, c3Mid]
    simp only [hfilter3]
    rfl
  rw [hrun2, hbots, hclean]
  exact ⟨rfl, rfl, rfl⟩



/-- C3 witness state. -/
def c3wSt : IssueState :=
  { labels := ["community:duplicate-report"], comments := [], state := "open",
    authorLogin := "alice", deleted := false, nextCommentId := 100 }

/-- Concrete instance of C3: the round trip restores the label and
comment lists of a state with one unrelated label and no comments. -/
theorem c3_round_trip_witness :
    runBot (c3Env "created") c3wSt
      = (c3Mid c3wSt,
         [Effect.addLabelE "community:verification-suggested",
          Effect.createCommentE c3ReplyBody])
    ∧ (runBot (c3Env "deleted") (c3Mid c3wSt)).1.labels = c3wSt.labels
    ∧ (runBot (c3Env "deleted") (c3Mid c3wSt)).1.comments = c3wSt.comments := by
  have h := c3_round_trip c3wSt (by decide) (by simp [c3wSt]) (by simp [c3wSt])
  exact ⟨h.1, h.2.2.1, h.2.2.2.1⟩


end ReportBot
